import Mathlib

/-!
Shallow embedding of the moveset persistence and lookup layer of the
professor-oak repository (`bot/cogs/db.py` and the validation layer of
`bot/cogs/commands.py`).

The SQLite table `pokemon (id INTEGER PRIMARY KEY, name TEXT NOT NULL UNIQUE,
sprite_url TEXT NOT NULL, random_sets TEXT DEFAULT [])` is modelled as a list
of rows in insertion order.  The `random_sets` column holds a JSON-encoded
list of `{item, moves}` records; JSON serialisation round-trips, so the column
is modelled directly as `List PokemonSet`.  `fetchone` on an unordered SELECT
returns the first matching row of the table.  Python exceptions
(`ValueError`, `FileNotFoundError`) are modelled by the `DbError` type, with
one constructor per distinct raise site relevant to the spec's taxonomy.

String operations are embedded structurally over the character list: the
source only uses single-character replacement (`replace("\\", "/")`,
`replace("-", " ")`), ASCII lowercasing (SQLite `LOWER`, applied to ASCII
creature names), whitespace stripping (`str.strip()` truthiness), and
separator tests, so each is modelled by the corresponding map/dropWhile over
`String.data`.
-/

/-- Mirrors `bot/models.py` `PokemonSet`: one item plus a list of moves. -/
structure PokemonSet where
  item : String
  moves : List String
deriving Repr, DecidableEq

/-- One row of the `pokemon` table (also `bot/models.py` `PokemonData`). -/
structure PokemonRow where
  id : Int
  name : String
  sprite_url : String
  random_sets : List PokemonSet
deriving Repr, DecidableEq

/-- The persisted state: the rows of the `pokemon` table, in insertion order. -/
abbrev Store := List PokemonRow

/-- Errors raised by the database and command layers.  `notFound` and
`invalidSetIndex` are the two `ValueError` raise sites in `db.py`;
`dataFileNotFound` is the `FileNotFoundError` for a missing reference file;
`validationError msg` is a `ValueError` raised by the command layer with
message `msg`. -/
inductive DbError where
  | notFound (name : String)
  | invalidSetIndex (name : String)
  | dataFileNotFound (path : String)
  | validationError (msg : String)
deriving Repr, DecidableEq

/-- SQLite `LOWER()` / Python `str.lower()` on the ASCII creature names:
lowercase every character. -/
def lowercase (s : String) : String := ⟨s.data.map Char.toLower⟩

/-- Python `s.replace(old, new)` for a single-character pattern, the only
shape the source uses: replace every occurrence of `old` by `new`. -/
def replaceChar (old new : Char) (s : String) : String :=
  ⟨s.data.map (fun c => if c == old then new else c)⟩

/-- Python `str.strip()`: drop leading and trailing whitespace. -/
def pyStrip (s : String) : String :=
  ⟨((s.data.dropWhile Char.isWhitespace).reverse.dropWhile Char.isWhitespace).reverse⟩

/-- The row predicate of `SELECT ... WHERE LOWER(name) = LOWER(?)`. -/
def nameMatches (q : String) (r : PokemonRow) : Bool :=
  lowercase r.name == lowercase q

/-- The SELECT + `fetchone` of `DatabaseManager.get_pokemon_data`: first row
whose name matches the query case-insensitively. -/
def fetchPokemon (st : Store) (q : String) : Option PokemonRow :=
  st.find? (nameMatches q)

/-- `DatabaseManager.get_pokemon_data`: look a row up by case-insensitive
name, raising `ValueError` (modelled `DbError.notFound`) when no row matches. -/
def get_pokemon_data (st : Store) (q : String) : Except DbError PokemonRow :=
  match fetchPokemon st q with
  | none => .error (.notFound q)
  | some r => .ok r

/-- The effect of `UPDATE pokemon SET random_sets = ? WHERE id = ?` on one
row: replace the `random_sets` column when the id matches. -/
def updateRow (i : Int) (sets : List PokemonSet) (r : PokemonRow) : PokemonRow :=
  if r.id == i then { r with random_sets := sets } else r

/-- The `UPDATE pokemon SET random_sets = ? WHERE id = ?` statement: replace
the `random_sets` column of every row whose id matches. -/
def updateRowById (st : Store) (i : Int) (sets : List PokemonSet) : Store :=
  st.map (updateRow i sets)

/-- The read phase of `DatabaseManager.add_pokemon_set`: retrieve the current
row (`await self.get_pokemon_data(pokemon_name)`). -/
def appendRead (st : Store) (q : String) : Except DbError PokemonRow :=
  get_pokemon_data st q

/-- The write phase of `DatabaseManager.add_pokemon_set`: append the new set
to the list read earlier and write the whole list back keyed by id. -/
def appendWrite (st : Store) (pd : PokemonRow) (s : PokemonSet) : Store :=
  updateRowById st pd.id (pd.random_sets ++ [s])

/-- `DatabaseManager.add_pokemon_set`: read the row, append the new set to the
tail of its list, write the list back by id. -/
def add_pokemon_set (st : Store) (q : String) (s : PokemonSet) :
    Except DbError Store := do
  let pd ← appendRead st q
  pure (appendWrite st pd s)

/-- `DatabaseManager.delete_pokemon_set`: read the row, reject an index that
is negative or not below the current list length (`ValueError`, modelled
`DbError.invalidSetIndex`) before any write happens, otherwise delete the
entry at that index (`del random_sets[set_index]`) and write the list back by
id. -/
def delete_pokemon_set (st : Store) (q : String) (set_index : Int) :
    Except DbError Store := do
  let pd ← get_pokemon_data st q
  if set_index < 0 ∨ (pd.random_sets.length : Int) ≤ set_index then
    throw (.invalidSetIndex q)
  else
    pure (updateRowById st pd.id (pd.random_sets.eraseIdx set_index.toNat))

/-- `DatabaseManager.reset_database`: drop the `pokemon` table and recreate
the empty schema, leaving an empty store. -/
def reset_database (_st : Store) : Store := []

/-- One record of the reference dataset `bot/data/national_dex.json`:
the fields `load_pokemon_data_from_json` reads. -/
structure CatalogRecord where
  id : Int
  image_path : String
deriving Repr, DecidableEq

/-- The parsed reference dataset: a mapping from creature name to record,
iterated in key order. -/
abbrev Dataset := List (String × CatalogRecord)

/-- `data["image_path"].replace("\\", "/")`: normalise path separators. -/
def normalizeSeparators (p : String) : String := replaceChar '\\' '/' p

/-- `os.path.join(base_path, relative_path)` for POSIX paths: an absolute
second component discards the first, otherwise the two are joined with a
single slash. -/
def path_join (base rel : String) : String :=
  if rel.data.head? == some '/' then rel
  else if base == "" || base.data.getLast? == some '/' then base ++ rel
  else base ++ "/" ++ rel

/-- The sprite path resolved by the loader for one record. -/
def resolvePath (base imagePath : String) : String :=
  path_join base (normalizeSeparators imagePath)

/-- Does any existing row conflict with `r` on the PRIMARY KEY `id` or the
(case-sensitive, BINARY-collated) UNIQUE `name`? -/
def hasConflict (st : Store) (r : PokemonRow) : Bool :=
  st.any (fun x => x.id == r.id || x.name == r.name)

/-- `INSERT OR IGNORE INTO pokemon`: the insert is silently skipped when any
existing row conflicts on `id` or `name`; otherwise the row is appended. -/
def insertOrIgnore (st : Store) (r : PokemonRow) : Store :=
  if hasConflict st r then st else st ++ [r]

/-- The warning logged when a record's sprite file is missing. -/
def spriteWarning (name absolutePath : String) : String :=
  s!"Sprite not found for {name}: {absolutePath}"

/-- The warnings the loader emits: one per record whose resolved sprite path
does not name an existing file, in dataset order. -/
def warningsOf (fs : String → Bool) (base : String) (ds : Dataset) : List String :=
  (ds.filter (fun nd => !fs (resolvePath base nd.2.image_path))).map
    (fun nd => spriteWarning nd.1 (resolvePath base nd.2.image_path))

/-- The row the loader builds for one catalog record: the record's id, the
creature name, the resolved sprite path, and an empty moveset list. -/
def rowOfRecord (base : String) (nd : String × CatalogRecord) : PokemonRow :=
  ⟨nd.2.id, nd.1, resolvePath base nd.2.image_path, []⟩

/-- The per-record loop of `DatabaseManager.load_pokemon_data_from_json`:
resolve each record's sprite path against the base directory; if the file is
missing, log a warning and skip the record; otherwise insert-or-ignore a row
with an empty moveset list.  Returns the final store and the warnings. -/
def load_records (fs : String → Bool) (base : String) :
    Dataset → Store → Store × List String
  | [], st => (st, [])
  | nd :: rest, st =>
    if fs (resolvePath base nd.2.image_path) then
      load_records fs base rest (insertOrIgnore st (rowOfRecord base nd))
    else
      ((load_records fs base rest st).1,
       spriteWarning nd.1 (resolvePath base nd.2.image_path) ::
         (load_records fs base rest st).2)

/-- The fixed path of the reference file checked by the loader. -/
def nationalDexPath : String := "bot/data/national_dex.json"

/-- `DatabaseManager.load_pokemon_data_from_json`: when the reference file is
missing or unparseable (`refFile = none`) the whole load fails with an error
raised to the caller before any record is processed and before the store is
touched; otherwise every record is processed by `load_records`. -/
def load_pokemon_data_from_json (refFile : Option Dataset) (fs : String → Bool)
    (base : String) (st : Store) : Except DbError (Store × List String) :=
  match refFile with
  | none => .error (.dataFileNotFound nationalDexPath)
  | some ds => .ok (load_records fs base ds st)

/-- `PokemonCommands._format_pokemon_name`: lowercase and replace hyphens by
spaces. -/
def format_pokemon_name (n : String) : String :=
  replaceChar '-' ' ' (lowercase n)

/-- `PokemonCommands._validate_moves_and_item`: exactly 4 moves, item truthy
(non-empty), every move non-empty after stripping whitespace. -/
def validate_moves_and_item (moves : List String) (item : String) : Bool :=
  if moves.length != 4 then false
  else if item == "" then false
  else moves.all (fun m => pyStrip m != "")

/-- The `ValueError` message for a wrong argument count in
`PokemonCommands.create_pokemon_set`. -/
def provideArgsMsg : String := "Provide: <item> <move1> <move2> <move3> <move4>"

/-- The `ValueError` message for failed moveset validation in
`PokemonCommands.create_pokemon_set`. -/
def invalidFormatMsg : String := "Invalid moves or item format"

/-- `PokemonCommands.create_pokemon_set`: reject unless exactly five extra
arguments (item plus four moves) were given; normalise the names; validate
moves and item; then append the new set through the database layer.  Every
`ValueError` is raised before the database update runs, so an error outcome
leaves the store untouched. -/
def create_pokemon_set (st : Store) (pokemon : String) (args : List String) :
    Except DbError Store :=
  match args with
  | [] => .error (.validationError provideArgsMsg)
  | item0 :: moves0 =>
    if moves0.length != 4 then .error (.validationError provideArgsMsg)
    else
      let pkmn := format_pokemon_name pokemon
      let item := replaceChar '-' ' ' item0
      let moves := moves0.map (replaceChar '-' ' ')
      if !validate_moves_and_item moves item then
        .error (.validationError invalidFormatMsg)
      else
        add_pokemon_set st pkmn ⟨item, moves⟩

/-- The interleaving read₁, read₂, write₁, write₂ of two
`DatabaseManager.add_pokemon_set` calls against the same name: both read
phases observe the same initial store, then both write phases run in order.
Built from the same `appendRead`/`appendWrite` phases that compose
`add_pokemon_set`. -/
def lostUpdateSchedule (st : Store) (q : String) (s1 s2 : PokemonSet) :
    Except DbError Store := do
  let pd1 ← appendRead st q
  let pd2 ← appendRead st q
  let st1 := appendWrite st pd1 s1
  pure (appendWrite st1 pd2 s2)

theorem name_updateRow (i : Int) (sets : List PokemonSet) (r : PokemonRow) :
    (updateRow i sets r).name = r.name := by
  unfold updateRow; split <;> rfl

theorem nameMatches_updateRow (q : String) (i : Int) (sets : List PokemonSet)
    (r : PokemonRow) : nameMatches q (updateRow i sets r) = nameMatches q r := by
  simp [nameMatches, name_updateRow]

theorem fetchPokemon_updateRowById (st : Store) (i : Int) (sets : List PokemonSet)
    (q : String) :
    fetchPokemon (updateRowById st i sets) q =
      (fetchPokemon st q).map (updateRow i sets) := by
  unfold fetchPokemon updateRowById
  have hp : (nameMatches q ∘ updateRow i sets) = nameMatches q := by
    funext r
    exact nameMatches_updateRow q i sets r
  rw [List.find?_map, hp]

theorem get_pokemon_data_updateRowById (st : Store) (q : String) (pd : PokemonRow)
    (sets : List PokemonSet) (h : get_pokemon_data st q = .ok pd) :
    get_pokemon_data (updateRowById st pd.id sets) q =
      .ok { pd with random_sets := sets } := by
  unfold get_pokemon_data at h ⊢
  rw [fetchPokemon_updateRowById]
  cases hf : fetchPokemon st q with
  | none => rw [hf] at h; exact absurd h (by simp)
  | some r =>
    rw [hf] at h
    have hr : r = pd := by simpa using h
    subst hr
    simp [updateRow]

theorem fetchPokemon_congr (st : Store) (q name : String)
    (h : lowercase q = lowercase name) :
    fetchPokemon st q = fetchPokemon st name := by
  unfold fetchPokemon
  congr 1
  funext r
  simp [nameMatches, h]

/-- Claim C1: for every entity name already persisted in the store, appending a
moveset (an item and four moves) and then looking the entity up under any
case-variant of that name succeeds and returns an entity whose movesets list
ends with exactly the appended moveset, moves in their given order. -/
theorem append_lookup_roundtrip (st : Store) (name q item m1 m2 m3 m4 : String)
    (hmem : st.any (fun r => r.name == name) = true)
    (hq : lowercase q = lowercase name) :
    ∃ st' pd, add_pokemon_set st name ⟨item, [m1, m2, m3, m4]⟩ = .ok st' ∧
      get_pokemon_data st' q = .ok pd ∧
      ∃ rest, pd.random_sets = rest ++ [⟨item, [m1, m2, m3, m4]⟩] := by
  have hex : ∃ r ∈ st, nameMatches name r = true := by
    obtain ⟨r, hr, hname⟩ := List.any_eq_true.mp hmem
    have : r.name = name := by simpa using hname
    exact ⟨r, hr, by simp [nameMatches, this]⟩
  have hsome : (st.find? (nameMatches name)).isSome = true :=
    List.find?_isSome.mpr hex
  obtain ⟨pd0, hfind⟩ := Option.isSome_iff_exists.mp hsome
  have hget : get_pokemon_data st name = .ok pd0 := by
    unfold get_pokemon_data fetchPokemon
    rw [hfind]
  have hgetq : get_pokemon_data st q = .ok pd0 := by
    unfold get_pokemon_data
    rw [fetchPokemon_congr st q name hq]
    unfold fetchPokemon
    rw [hfind]
  refine ⟨appendWrite st pd0 ⟨item, [m1, m2, m3, m4]⟩,
    { pd0 with random_sets := pd0.random_sets ++ [⟨item, [m1, m2, m3, m4]⟩] },
    ?_, ?_, pd0.random_sets, rfl⟩
  · unfold add_pokemon_set appendRead
    rw [hget]
    rfl
  · unfold appendWrite
    exact get_pokemon_data_updateRowById st q pd0 _ hgetq

/-- Claim C5: for a persisted entity, deleting at an index below zero or not
below the current movesets length fails with the index-out-of-range
`ValueError`; the error is raised before the UPDATE, so the stored list is
left unmodified (no store is returned on the error path). -/
theorem delete_out_of_range (st : Store) (q : String) (pd : PokemonRow) (i : Int)
    (hget : get_pokemon_data st q = .ok pd)
    (hi : i < 0 ∨ (pd.random_sets.length : Int) ≤ i) :
    delete_pokemon_set st q i = .error (.invalidSetIndex q) := by
  unfold delete_pokemon_set
  rw [hget]
  show (if i < 0 ∨ (pd.random_sets.length : Int) ≤ i then
          (throw (DbError.invalidSetIndex q) : Except DbError Store)
        else pure (updateRowById st pd.id (pd.random_sets.eraseIdx i.toNat))) =
       Except.error (DbError.invalidSetIndex q)
  rw [if_pos hi]
  rfl

/-- Claim C6: for a persisted entity with movesets of length L and a valid
zero-based index i, deleting at i succeeds and leaves a list of length L-1
whose entries before i are unchanged while each entry previously at position
j > i is now at position j-1. -/
theorem delete_shifts (st : Store) (q : String) (pd : PokemonRow) (i : Nat)
    (hget : get_pokemon_data st q = .ok pd)
    (hi : i < pd.random_sets.length) :
    ∃ st' pd', delete_pokemon_set st q (i : Int) = .ok st' ∧
      get_pokemon_data st' q = .ok pd' ∧
      pd'.random_sets.length = pd.random_sets.length - 1 ∧
      (∀ j, j < i → pd'.random_sets[j]? = pd.random_sets[j]?) ∧
      (∀ j, i ≤ j → pd'.random_sets[j]? = pd.random_sets[j + 1]?) := by
  have hcond : ¬((i : Int) < 0 ∨ (pd.random_sets.length : Int) ≤ (i : Int)) := by
    push_neg
    omega
  refine ⟨updateRowById st pd.id (pd.random_sets.eraseIdx i),
    { pd with random_sets := pd.random_sets.eraseIdx i }, ?_, ?_, ?_, ?_, ?_⟩
  · unfold delete_pokemon_set
    rw [hget]
    show (if (i : Int) < 0 ∨ (pd.random_sets.length : Int) ≤ (i : Int) then
            (throw (DbError.invalidSetIndex q) : Except DbError Store)
          else pure (updateRowById st pd.id (pd.random_sets.eraseIdx (i : Int).toNat))) =
         Except.ok (updateRowById st pd.id (pd.random_sets.eraseIdx i))
    rw [if_neg hcond]
    rfl
  · exact get_pokemon_data_updateRowById st q pd _ hget
  · simp [List.length_eraseIdx, hi]
  · intro j hj
    exact List.getElem?_eraseIdx_of_lt _ _ _ hj
  · intro j hj
    exact List.getElem?_eraseIdx_of_ge _ _ _ hj

theorem insertOrIgnore_of_conflict {st : Store} {r : PokemonRow}
    (h : hasConflict st r = true) : insertOrIgnore st r = st := by
  unfold insertOrIgnore
  rw [if_pos h]

theorem insertOrIgnore_extends (st : Store) (r : PokemonRow) :
    ∃ e, insertOrIgnore st r = st ++ e := by
  unfold insertOrIgnore
  split
  · exact ⟨[], by simp⟩
  · exact ⟨[r], rfl⟩

theorem hasConflict_insertOrIgnore (st : Store) (r : PokemonRow) :
    hasConflict (insertOrIgnore st r) r = true := by
  unfold insertOrIgnore
  split
  · assumption
  · unfold hasConflict
    rw [List.any_append]
    simp

theorem hasConflict_append (st ext : Store) (r : PokemonRow)
    (h : hasConflict st r = true) : hasConflict (st ++ ext) r = true := by
  unfold hasConflict at h ⊢
  rw [List.any_append, h]
  rfl

theorem load_records_extends (fs : String → Bool) (base : String) :
    ∀ (ds : Dataset) (st : Store), ∃ ext, (load_records fs base ds st).1 = st ++ ext := by
  intro ds
  induction ds with
  | nil => exact fun st => ⟨[], by simp [load_records]⟩
  | cons nd rest ih =>
    intro st
    unfold load_records
    by_cases h : fs (resolvePath base nd.2.image_path) = true
    · rw [if_pos h]
      obtain ⟨e1, he1⟩ := insertOrIgnore_extends st (rowOfRecord base nd)
      obtain ⟨ext, hext⟩ := ih (insertOrIgnore st (rowOfRecord base nd))
      exact ⟨e1 ++ ext, by rw [hext, he1, List.append_assoc]⟩
    · rw [if_neg h]
      exact ih st

theorem load_records_settles (fs : String → Bool) (base : String) :
    ∀ (ds : Dataset) (st : Store) (nd : String × CatalogRecord), nd ∈ ds →
      fs (resolvePath base nd.2.image_path) = true →
      hasConflict (load_records fs base ds st).1 (rowOfRecord base nd) = true := by
  intro ds
  induction ds with
  | nil => intro st nd h; cases h
  | cons hd rest ih =>
    intro st nd hmem hfs
    unfold load_records
    rcases List.mem_cons.mp hmem with heq | hmem'
    · subst heq
      rw [if_pos hfs]
      obtain ⟨ext, hext⟩ :=
        load_records_extends fs base rest (insertOrIgnore st (rowOfRecord base nd))
      rw [hext]
      exact hasConflict_append _ _ _ (hasConflict_insertOrIgnore st _)
    · by_cases h : fs (resolvePath base hd.2.image_path) = true
      · rw [if_pos h]
        exact ih _ nd hmem' hfs
      · rw [if_neg h]
        exact ih st nd hmem' hfs

theorem load_records_noop (fs : String → Bool) (base : String) :
    ∀ (ds : Dataset) (st : Store),
      (∀ nd ∈ ds, fs (resolvePath base nd.2.image_path) = true →
        hasConflict st (rowOfRecord base nd) = true) →
      (load_records fs base ds st).1 = st := by
  intro ds
  induction ds with
  | nil => intro st _; rfl
  | cons hd rest ih =>
    intro st h
    unfold load_records
    by_cases hfs : fs (resolvePath base hd.2.image_path) = true
    · rw [if_pos hfs]
      rw [insertOrIgnore_of_conflict (h hd (List.mem_cons_self hd rest) hfs)]
      exact ih st (fun nd hm hf => h nd (List.mem_cons_of_mem hd hm) hf)
    · rw [if_neg hfs]
      exact ih st (fun nd hm hf => h nd (List.mem_cons_of_mem hd hm) hf)

theorem load_records_snd (fs : String → Bool) (base : String) :
    ∀ (ds : Dataset) (st : Store), (load_records fs base ds st).2 = warningsOf fs base ds := by
  intro ds
  induction ds with
  | nil => intro st; rfl
  | cons hd rest ih =>
    intro st
    unfold load_records warningsOf
    by_cases hfs : fs (resolvePath base hd.2.image_path) = true
    · rw [if_pos hfs, List.filter_cons]
      rw [if_neg (by simp [hfs])]
      rw [ih]
      rfl
    · rw [if_neg hfs, List.filter_cons]
      have hfs' : fs (resolvePath base hd.2.image_path) = false := by
        revert hfs
        cases fs (resolvePath base hd.2.image_path) <;> simp
      rw [if_pos (by simp [hfs'])]
      show spriteWarning hd.1 (resolvePath base hd.2.image_path) ::
        (load_records fs base rest st).2 = _
      rw [ih]
      rfl

theorem load_records_filter_fst (fs : String → Bool) (base : String) :
    ∀ (ds : Dataset) (st : Store),
      (load_records fs base ds st).1 =
        (load_records fs base
          (ds.filter (fun nd => fs (resolvePath base nd.2.image_path))) st).1 := by
  intro ds
  induction ds with
  | nil => intro st; rfl
  | cons hd rest ih =>
    intro st
    rw [List.filter_cons]
    by_cases hfs : fs (resolvePath base hd.2.image_path) = true
    · rw [if_pos hfs]
      unfold load_records
      rw [if_pos hfs, if_pos hfs]
      exact ih _
    · rw [if_neg hfs]
      simp only [load_records]
      rw [if_neg hfs]
      exact ih st

theorem pyStrip_eq_empty_iff (s : String) :
    pyStrip s = "" ↔ ∀ c ∈ s.data, c.isWhitespace = true := by
  unfold pyStrip
  rw [String.ext_iff]
  show (((s.data.dropWhile Char.isWhitespace).reverse.dropWhile
      Char.isWhitespace).reverse = ("" : String).data) ↔ _
  rw [show ("" : String).data = [] from rfl]
  rw [List.reverse_eq_nil_iff, List.dropWhile_eq_nil_iff]
  constructor
  · intro h c hc
    have hsplit := List.takeWhile_append_dropWhile (p := Char.isWhitespace) (l := s.data)
    rw [← hsplit] at hc
    rcases List.mem_append.mp hc with h1 | h2
    · exact List.mem_takeWhile_imp h1
    · exact h _ (List.mem_reverse.mpr h2)
  · intro h x hx
    exact h x ((List.dropWhile_sublist _).subset (List.mem_reverse.mp hx))

theorem pyStrip_replaceChar_of_empty {m : String} (h : pyStrip m = "") :
    pyStrip (replaceChar '-' ' ' m) = "" := by
  rw [pyStrip_eq_empty_iff] at h ⊢
  intro c hc
  obtain ⟨c0, hc0, hgc⟩ := List.mem_map.mp hc
  subst hgc
  by_cases hd : (c0 == '-') = true
  · rw [if_pos hd]; decide
  · rw [if_neg hd]; exact h c0 hc0

theorem validate_false_of_bad (moves : List String) (item : String)
    (h4 : moves.length = 4)
    (hbad : item = "" ∨ ∃ m ∈ moves, pyStrip m = "") :
    validate_moves_and_item (moves.map (replaceChar '-' ' '))
      (replaceChar '-' ' ' item) = false := by
  unfold validate_moves_and_item
  rw [if_neg (by simp [h4])]
  by_cases hitem : (replaceChar '-' ' ' item == "") = true
  · rw [if_pos hitem]
  · rw [if_neg hitem]
    rcases hbad with hi | ⟨m, hm, hstrip⟩
    · exact absurd (by subst hi; decide) hitem
    · have hnot : ¬ ((moves.map (replaceChar '-' ' ')).all
          (fun m => pyStrip m != "") = true) := by
        rw [List.all_eq_true]
        push_neg
        refine ⟨replaceChar '-' ' ' m, List.mem_map_of_mem _ hm, ?_⟩
        simp [pyStrip_replaceChar_of_empty hstrip]
      revert hnot
      cases (moves.map (replaceChar '-' ' ')).all (fun m => pyStrip m != "") <;> simp

/-- Claim C2: an append whose preconditions are violated (item empty, or the
moves list not exactly 4 entries each non-empty after trimming) fails with a
`ValueError` whose message distinguishes a wrong argument count
(`provideArgsMsg`) from an empty field (`invalidFormatMsg`), and — since the
error is raised before the database update — the stored state is not mutated
(no store is returned on the error path). -/
theorem append_validation_rejects (st : Store) (pokemon item : String)
    (moves : List String) :
    (moves.length ≠ 4 →
      create_pokemon_set st pokemon (item :: moves) =
        .error (.validationError provideArgsMsg)) ∧
    (moves.length = 4 → (item = "" ∨ ∃ m ∈ moves, pyStrip m = "") →
      create_pokemon_set st pokemon (item :: moves) =
        .error (.validationError invalidFormatMsg)) ∧
    provideArgsMsg ≠ invalidFormatMsg := by
  refine ⟨?_, ?_, by decide⟩
  · intro h
    simp only [create_pokemon_set]
    rw [if_pos (by simpa using h)]
  · intro h4 hbad
    simp only [create_pokemon_set]
    rw [if_neg (by simp [h4])]
    show (if (!validate_moves_and_item (moves.map (replaceChar '-' ' '))
               (replaceChar '-' ' ' item)) = true then
            (Except.error (DbError.validationError invalidFormatMsg) : Except DbError Store)
          else add_pokemon_set st (format_pokemon_name pokemon)
            ⟨replaceChar '-' ' ' item, moves.map (replaceChar '-' ' ')⟩) =
         Except.error (DbError.validationError invalidFormatMsg)
    rw [validate_false_of_bad moves item h4 hbad]
    rfl

/-- Claim C7: running the catalog loader twice against the same reference
dataset and base directory yields the same persisted entities and warnings as
running it once, with no error; pre-existing rows survive verbatim (the final
store extends the initial one), so rows whose id already exists are never
overwritten. -/
theorem load_twice_eq_load_once (ds : Dataset) (fs : String → Bool) (base : String)
    (st st1 : Store) (w1 : List String)
    (h : load_pokemon_data_from_json (some ds) fs base st = .ok (st1, w1)) :
    load_pokemon_data_from_json (some ds) fs base st1 = .ok (st1, w1) ∧
    ∃ ext, st1 = st ++ ext := by
  have h' : load_records fs base ds st = (st1, w1) := by
    unfold load_pokemon_data_from_json at h
    simpa using h
  have hfst : (load_records fs base ds st).1 = st1 := by rw [h']
  have hsnd : (load_records fs base ds st).2 = w1 := by rw [h']
  constructor
  · show Except.ok (load_records fs base ds st1) =
      (Except.ok (st1, w1) : Except DbError (Store × List String))
    congr 1
    apply Prod.ext
    · apply load_records_noop
      intro nd hm hf
      rw [← hfst]
      exact load_records_settles fs base ds st nd hm hf
    · show (load_records fs base ds st1).2 = w1
      rw [load_records_snd, ← hsnd, load_records_snd]
  · obtain ⟨ext, hext⟩ := load_records_extends fs base ds st
    exact ⟨ext, by rw [← hfst, hext]⟩

/-- Claim C8: during a catalog load, records whose resolved sprite path names
no existing file are skipped — the resulting store equals the one produced by
loading only the records whose asset exists, and one warning diagnostic is
emitted per skipped record — while a missing or unparseable reference file
fails the whole load with an error raised to the caller before any record is
processed. -/
theorem load_missing_asset_skips_missing_file_fatal (ds : Dataset)
    (fs : String → Bool) (base : String) (st : Store) :
    load_pokemon_data_from_json none fs base st =
      .error (.dataFileNotFound nationalDexPath) ∧
    load_pokemon_data_from_json (some ds) fs base st =
      .ok ((load_records fs base
             (ds.filter (fun nd => fs (resolvePath base nd.2.image_path))) st).1,
           warningsOf fs base ds) := by
  refine ⟨rfl, ?_⟩
  show Except.ok (load_records fs base ds st) =
    (Except.ok _ : Except DbError (Store × List String))
  congr 1
  apply Prod.ext
  · exact load_records_filter_fst fs base ds st
  · exact load_records_snd fs base ds st

/-- Claim C9: after a reset the schema is recreated empty (every entity and
moveset destroyed), so any subsequent lookup on a previously-existing name
fails with the not-found error. -/
theorem reset_then_lookup_not_found (st : Store) (q : String) :
    reset_database st = ([] : Store) ∧
    get_pokemon_data (reset_database st) q = .error (.notFound q) :=
  ⟨rfl, rfl⟩

/-- Claim C10 (implicit): a catalog record whose name exactly equals an
already-persisted entity name is skipped by `INSERT OR IGNORE` — nothing is
inserted, nothing is overwritten, and no error or warning is produced — even
when the record id is not present in the store (the witness uses a fresh
id 99 against an existing row with id 1). -/
theorem load_skips_exact_name_conflict (st : Store) (name : String)
    (d : CatalogRecord) (fs : String → Bool) (base : String)
    (hname : st.any (fun x => x.name == name) = true)
    (hfs : fs (resolvePath base d.image_path) = true) :
    load_records fs base [(name, d)] st = (st, []) := by
  have hc : hasConflict st (rowOfRecord base (name, d)) = true := by
    unfold hasConflict
    obtain ⟨x, hx, hxe⟩ := List.any_eq_true.mp hname
    exact List.any_eq_true.mpr ⟨x, hx, by
      show (x.id == d.id || x.name == name) = true
      rw [Bool.or_eq_true]
      exact Or.inr hxe⟩
  unfold load_records
  rw [if_pos hfs, insertOrIgnore_of_conflict hc]
  rfl

/-- Claim C3 is violated by the code: the loader's `INSERT OR IGNORE` only
detects exact-name conflicts (the UNIQUE constraint uses BINARY collation),
so a reference dataset containing the two distinct keys "pikachu" (id 1) and
"PIKACHU" (id 2), both with existing assets, reaches a store state in which
two persisted entities share the same name under case-insensitive
comparison. -/
theorem loader_reaches_case_colliding_names :
    load_pokemon_data_from_json
        (some [("pikachu", ⟨1, "a.png"⟩), ("PIKACHU", ⟨2, "b.png"⟩)])
        (fun _ => true) "base" [] =
      .ok ([⟨1, "pikachu", "base/a.png", []⟩, ⟨2, "PIKACHU", "base/b.png", []⟩], []) ∧
    lowercase "pikachu" = lowercase "PIKACHU" ∧
    ("pikachu" : String) ≠ "PIKACHU" :=
  ⟨rfl, by decide, by decide⟩

/-- Claim C4 is violated by the code: `add_pokemon_set` is the unguarded
read-modify-write `appendRead` followed by `appendWrite`, so under the
interleaving read₁, read₂, write₁, write₂ of two appends (N = 2) with
distinct items against the same entity, the final movesets list has length 1
— the first append's mutation is silently discarded — instead of the length
2 the claim requires. -/
theorem concurrent_appends_lose_update :
    lostUpdateSchedule [⟨25, "pikachu", "p.png", []⟩] "pikachu"
        ⟨"item one", ["a", "b", "c", "d"]⟩ ⟨"item two", ["a", "b", "c", "d"]⟩ =
      .ok [⟨25, "pikachu", "p.png", [⟨"item two", ["a", "b", "c", "d"]⟩]⟩] ∧
    (⟨25, "pikachu", "p.png", [⟨"item two", ["a", "b", "c", "d"]⟩]⟩ : PokemonRow).random_sets.length = 1 :=
  ⟨rfl, by decide⟩

theorem append_lookup_roundtrip_witness :
    ∃ st' pd,
      add_pokemon_set [⟨25, "pikachu", "p.png", []⟩] "pikachu"
          ⟨"light ball", ["thunderbolt", "quick attack", "iron tail", "volt tackle"]⟩ =
        .ok st' ∧
      get_pokemon_data st' "PIKACHU" = .ok pd ∧
      ∃ rest, pd.random_sets = rest ++
        [⟨"light ball", ["thunderbolt", "quick attack", "iron tail", "volt tackle"]⟩] :=
  append_lookup_roundtrip [⟨25, "pikachu", "p.png", []⟩] "pikachu" "PIKACHU"
    "light ball" "thunderbolt" "quick attack" "iron tail" "volt tackle"
    (by decide) (by decide)

theorem append_validation_rejects_witness :
    create_pokemon_set [] "pikachu" ("light ball" :: ["m1", "m2", "m3"]) =
      .error (.validationError provideArgsMsg) ∧
    create_pokemon_set [] "pikachu" ("" :: ["m1", "m2", "m3", "m4"]) =
      .error (.validationError invalidFormatMsg) ∧
    provideArgsMsg ≠ invalidFormatMsg :=
  ⟨(append_validation_rejects [] "pikachu" "light ball" ["m1", "m2", "m3"]).1 (by decide),
   (append_validation_rejects [] "pikachu" "" ["m1", "m2", "m3", "m4"]).2.1 (by decide)
     (Or.inl rfl),
   (append_validation_rejects [] "pikachu" "x" ["m1", "m2", "m3", "m4"]).2.2⟩

theorem delete_out_of_range_witness :
    delete_pokemon_set [⟨25, "pikachu", "p.png", [⟨"i0", ["a"]⟩]⟩] "pikachu" (-1) =
      .error (.invalidSetIndex "pikachu") ∧
    delete_pokemon_set [⟨25, "pikachu", "p.png", [⟨"i0", ["a"]⟩]⟩] "pikachu" 1 =
      .error (.invalidSetIndex "pikachu") :=
  ⟨delete_out_of_range [⟨25, "pikachu", "p.png", [⟨"i0", ["a"]⟩]⟩] "pikachu"
      ⟨25, "pikachu", "p.png", [⟨"i0", ["a"]⟩]⟩ (-1) rfl (by decide),
   delete_out_of_range [⟨25, "pikachu", "p.png", [⟨"i0", ["a"]⟩]⟩] "pikachu"
      ⟨25, "pikachu", "p.png", [⟨"i0", ["a"]⟩]⟩ 1 rfl (by decide)⟩

theorem delete_shifts_witness :
    ∃ st' pd',
      delete_pokemon_set
          [⟨25, "pikachu", "p.png", [⟨"i0", ["a"]⟩, ⟨"i1", ["b"]⟩, ⟨"i2", ["c"]⟩]⟩]
          "pikachu" ((1 : Nat) : Int) = .ok st' ∧
      get_pokemon_data st' "pikachu" = .ok pd' ∧
      pd'.random_sets.length =
        [(⟨"i0", ["a"]⟩ : PokemonSet), ⟨"i1", ["b"]⟩, ⟨"i2", ["c"]⟩].length - 1 ∧
      (∀ j, j < 1 → pd'.random_sets[j]? =
        [(⟨"i0", ["a"]⟩ : PokemonSet), ⟨"i1", ["b"]⟩, ⟨"i2", ["c"]⟩][j]?) ∧
      (∀ j, 1 ≤ j → pd'.random_sets[j]? =
        [(⟨"i0", ["a"]⟩ : PokemonSet), ⟨"i1", ["b"]⟩, ⟨"i2", ["c"]⟩][j + 1]?) :=
  delete_shifts [⟨25, "pikachu", "p.png", [⟨"i0", ["a"]⟩, ⟨"i1", ["b"]⟩, ⟨"i2", ["c"]⟩]⟩]
    "pikachu" ⟨25, "pikachu", "p.png", [⟨"i0", ["a"]⟩, ⟨"i1", ["b"]⟩, ⟨"i2", ["c"]⟩]⟩ 1
    rfl (by decide)

theorem load_twice_eq_load_once_witness :
    load_pokemon_data_from_json
        (some [("pikachu", ⟨1, "a.png"⟩), ("missing", ⟨2, "m.png"⟩)])
        (fun s => s == "base/a.png") "base" [⟨1, "pikachu", "base/a.png", []⟩] =
      .ok ([⟨1, "pikachu", "base/a.png", []⟩],
           ["Sprite not found for missing: base/m.png"]) ∧
    ∃ ext, [(⟨1, "pikachu", "base/a.png", []⟩ : PokemonRow)] = ([] : Store) ++ ext :=
  load_twice_eq_load_once [("pikachu", ⟨1, "a.png"⟩), ("missing", ⟨2, "m.png"⟩)]
    (fun s => s == "base/a.png") "base" [] [⟨1, "pikachu", "base/a.png", []⟩]
    ["Sprite not found for missing: base/m.png"] rfl

theorem load_skips_exact_name_conflict_witness :
    load_records (fun _ => true) "base" [("pikachu", ⟨99, "a.png"⟩)]
        [⟨1, "pikachu", "old.png", []⟩] = ([⟨1, "pikachu", "old.png", []⟩], []) :=
  load_skips_exact_name_conflict [⟨1, "pikachu", "old.png", []⟩] "pikachu"
    ⟨99, "a.png"⟩ (fun _ => true) "base" (by decide) rfl
